import Mathlib

/-!
# Verification of the `rust-cyphernet` AEAD core

Shallow embedding of `src/noise/chacha.rs` (and the stubbed
`src/addr/i2p.rs`) from the Cyphernet-WG/rust-cyphernet repository.

Bytes are modelled as `Nat` values below 256, 32-bit words as `Nat`
values reduced modulo `2^32`.  The repository's `encrypt`/`decrypt`
functions delegate to the `chacha20poly1305` crate (RFC 8439
ChaCha20-Poly1305); that cipher is embedded here in full so that the
wrapper's behaviour is the behaviour of the real code path.

Rust panics (from `Key::from_slice` on a key of the wrong length and
from `copy_from_slice` on an output buffer of the wrong length) are
modelled as an explicit `RunResult.panic` outcome, distinct from
returning an error value.
-/

set_option maxRecDepth 100000

/-- Outcome of a Rust call that may return `Ok`, return `Err`, or panic. -/
inductive RunResult (ε α : Type) where
  | ok : α → RunResult ε α
  | error : ε → RunResult ε α
  | panic : RunResult ε α
  deriving DecidableEq

/-- Modelled from the spec: the repository's `EncryptionError` type lives in
`src/noise/mod.rs`, which is not part of the sources given; the spec's error
taxonomy (§7) names the kinds `KeyError`, `CiphertextTooShort`,
`AuthenticationFailed` and `BufferLengthMismatch`. -/
inductive EncryptionError where
  | keyError
  | ciphertextTooShort
  | authenticationFailed
  | bufferLengthMismatch
  deriving DecidableEq

/-- The crate error `chacha20poly1305::aead::Error` is an opaque fieldless struct: a single
error value, carrying no information about the failure cause.  The repository
converts it into `EncryptionError` with a `From` impl (missing from the given
sources) via the `?` operator; being a function out of a unit type, any such
conversion is determined by the single `EncryptionError` value it returns.
The conversion is therefore passed around as a plain value `conv`. -/
abbrev AeadErrorImage := EncryptionError

/-! ## ChaCha20 block function (RFC 8439 §2.3, as used by the `chacha20` crate) -/

/-- The modulus 2^32 for 32-bit words. -/
def U32 : Nat := 4294967296

/-- Wrapping 32-bit addition. -/
def add32 (a b : Nat) : Nat := (a + b) % U32

/-- Rotate a 32-bit word left by `n` bits. -/
def rotl32 (x n : Nat) : Nat := ((x <<< n) % U32) ||| (x >>> (32 - n))

/-- Read the `i`-th little-endian 32-bit word out of a byte list. -/
def le32 (bytes : List Nat) (i : Nat) : Nat :=
  bytes.getD (4 * i) 0 + 256 * bytes.getD (4 * i + 1) 0 +
    65536 * bytes.getD (4 * i + 2) 0 + 16777216 * bytes.getD (4 * i + 3) 0

/-- One ChaCha quarter round on state positions `ia ib ic id`. -/
def quarterRound (s : List Nat) (ia ib ic i3 : Nat) : List Nat :=
  let a := s.getD ia 0
  let b := s.getD ib 0
  let c := s.getD ic 0
  let d := s.getD i3 0
  let a := add32 a b
  let d := rotl32 (Nat.xor d a) 16
  let c := add32 c d
  let b := rotl32 (Nat.xor b c) 12
  let a := add32 a b
  let d := rotl32 (Nat.xor d a) 8
  let c := add32 c d
  let b := rotl32 (Nat.xor b c) 7
  ((((s.set ia a).set ib b).set ic c).set i3 d)

/-- A ChaCha double round: four column rounds then four diagonal rounds. -/
def doubleRound (s : List Nat) : List Nat :=
  let s := quarterRound s 0 4 8 12
  let s := quarterRound s 1 5 9 13
  let s := quarterRound s 2 6 10 14
  let s := quarterRound s 3 7 11 15
  let s := quarterRound s 0 5 10 15
  let s := quarterRound s 1 6 11 12
  let s := quarterRound s 2 7 8 13
  let s := quarterRound s 3 4 9 14
  s

/-- Ten double rounds = the 20 ChaCha rounds. -/
def chachaRounds (s : List Nat) : List Nat :=
  (List.range 10).foldl (fun t _ => doubleRound t) s

/-- Initial ChaCha state: constants, 8 key words, block counter, 3 nonce
words (96-bit IETF nonce), all little-endian. -/
def chachaInit (key nonceB : List Nat) (ctr : Nat) : List Nat :=
  [1634760805, 857760878, 2036477234, 1797285236] ++
    (List.range 8).map (le32 key) ++
    [ctr % U32] ++
    (List.range 3).map (le32 nonceB)

/-- Serialize a 32-bit word to 4 little-endian bytes. -/
def word4 (w : Nat) : List Nat :=
  [w % 256, w / 256 % 256, w / 65536 % 256, w / 16777216 % 256]

/-- One 64-byte ChaCha20 keystream block for block counter `ctr`. -/
def chachaBlock (key nonceB : List Nat) (ctr : Nat) : List Nat :=
  let s0 := chachaInit key nonceB ctr
  (List.zipWith add32 (chachaRounds s0) s0).flatMap word4

/-- Byte `i` of the ChaCha20 keystream used for the payload: block counters
start at 1 (counter 0 is reserved for the Poly1305 key). -/
def ksByte (key nonceB : List Nat) (i : Nat) : Nat :=
  (chachaBlock key nonceB (1 + i / 64)).getD (i % 64) 0

/-- The first `len` payload-keystream bytes. -/
def keyStream (key nonceB : List Nat) (len : Nat) : List Nat :=
  (List.range len).map (ksByte key nonceB)

/-! ## Poly1305 (RFC 8439 §2.5) -/

/-- Interpret a byte list as a little-endian natural number. -/
def leNum (bytes : List Nat) : Nat :=
  bytes.foldr (fun b acc => b + 256 * acc) 0

/-- The Poly1305 prime 2^130 - 5. -/
def P1305 : Nat := 1361129467683753853853498429727072845819

/-- Little-endian serialization of `n` to `k` bytes. -/
def leBytes (k n : Nat) : List Nat :=
  (List.range k).map (fun i => n / 256 ^ i % 256)

/-- Poly1305 MAC: 32-byte one-time key (clamped `r`, then `s`), 16-byte tag.
Each 16-byte chunk (the last possibly shorter) is read little-endian with a
high `1` byte appended, accumulated as a polynomial in `r` modulo 2^130-5. -/
def poly1305 (keyB msg : List Nat) : List Nat :=
  let r := leNum (keyB.take 16) &&& 21267647620597763993911028882763415551
  let s := leNum ((keyB.drop 16).take 16)
  let nChunks := (msg.length + 15) / 16
  let acc := (List.range nChunks).foldl
    (fun acc i =>
      let chunk := (msg.drop (16 * i)).take 16
      ((acc + leNum chunk + 256 ^ chunk.length) * r) % P1305) 0
  leBytes 16 ((acc + s) % 340282366920938463463374607431768211456)

/-! ## ChaCha20-Poly1305 AEAD (RFC 8439 §2.8, the `chacha20poly1305` crate) -/

/-- The Poly1305 one-time key: first 32 bytes of the counter-0 block. -/
def polyKey (key nonceB : List Nat) : List Nat :=
  (chachaBlock key nonceB 0).take 32

/-- Zero padding of a byte sequence up to a 16-byte boundary. -/
def pad16 (l : List Nat) : List Nat :=
  List.replicate ((16 - l.length % 16) % 16) 0

/-- The data authenticated by the tag: aad, padding, ciphertext, padding,
then the two 64-bit little-endian lengths. -/
def macData (aad ct : List Nat) : List Nat :=
  aad ++ pad16 aad ++ ct ++ pad16 ct ++ leBytes 8 aad.length ++ leBytes 8 ct.length

/-- AEAD encryption: XOR the plaintext with the keystream, append the tag. -/
def aeadEncrypt (key nonceB aad pt : List Nat) : List Nat :=
  List.zipWith Nat.xor pt (keyStream key nonceB pt.length) ++
    poly1305 (polyKey key nonceB)
      (macData aad (List.zipWith Nat.xor pt (keyStream key nonceB pt.length)))

/-- AEAD decryption: `none` models `chacha20poly1305::aead::Error` (the crate
first fails if the buffer is shorter than the 16-byte tag, via `checked_sub`,
and otherwise recomputes and compares the tag before any plaintext is
produced). -/
def aeadDecrypt (key nonceB aad ct : List Nat) : Option (List Nat) :=
  if ct.length < 16 then none
  else if ct.drop (ct.length - 16) =
      poly1305 (polyKey key nonceB) (macData aad (ct.take (ct.length - 16))) then
    some (List.zipWith Nat.xor (ct.take (ct.length - 16))
      (keyStream key nonceB (ct.take (ct.length - 16)).length))
  else none

/-! ## The repository wrapper (`src/noise/chacha.rs`) -/

/-- Constant `TAG_SIZE` from `chacha.rs`. -/
def TAG_SIZE : Nat := 16

/-- Function `_nonce`: zero-fill a 12-byte buffer and write the 8 little-endian
counter bytes into positions 4..12. -/
def _nonce (nonce : Nat) : List Nat :=
  List.replicate 4 0 ++ leBytes 8 nonce

/-- Function `_cypher`: `Key::from_slice` panics (`none`) unless the key is exactly
32 bytes; otherwise the cipher instance is determined by the key. -/
def _cypher (key : List Nat) : Option (List Nat) :=
  if key.length = 32 then some key else none

/-- Rust `copy_from_slice`: panics (`none`) unless the lengths match, else the
destination becomes a copy of the source. -/
def copy_from_slice (dst src : List Nat) : Option (List Nat) :=
  if dst.length = src.length then some src else none

/-- Function `encrypt` from `chacha.rs`.  Returns the produced ciphertext together
with the final contents of the optional caller-supplied output buffer.
(The crate's `encrypt` call cannot fail for inputs representable here, so
the `?` conversion of `aead::Error` never fires on this path.) -/
def encrypt (key : List Nat) (nonce : Nat)
    (associated_data plaintext : List Nat) (ciphertext : Option (List Nat)) :
    RunResult EncryptionError (List Nat × Option (List Nat)) :=
  match _cypher key with
  | none => .panic
  | some k =>
    let encrypted := aeadEncrypt k (_nonce nonce) associated_data plaintext
    match ciphertext with
    | none => .ok (encrypted, none)
    | some e =>
      match copy_from_slice e encrypted with
      | none => .panic
      | some e2 => .ok (encrypted, some e2)

/-- Function `decrypt` from `chacha.rs`.  A failure of the crate's `decrypt` is the
single opaque `aead::Error`; the `?` operator converts it into the
`EncryptionError` value `conv`. -/
def decrypt (conv : AeadErrorImage) (key : List Nat) (nonce : Nat)
    (associated_data ciphertext : List Nat) (plaintext : Option (List Nat)) :
    RunResult EncryptionError (List Nat × Option (List Nat)) :=
  match _cypher key with
  | none => .panic
  | some k =>
    match aeadDecrypt k (_nonce nonce) associated_data ciphertext with
    | none => .error conv
    | some decrypted =>
      match plaintext with
      | none => .ok (decrypted, none)
      | some d =>
        match copy_from_slice d decrypted with
        | none => .panic
        | some d2 => .ok (decrypted, some d2)

/-! ## The stubbed address type (`src/addr/i2p.rs`) -/

/-- Type `I2pAddr` wraps a 32-byte identity. -/
structure I2pAddr where
  data : List Nat
  deriving DecidableEq

/-- Impl `FromStr for I2pAddr` — the body is `todo!()`, an unconditional panic. -/
def I2pAddr.from_str (_ : String) : RunResult Unit I2pAddr := .panic

/-- Impl `Display for I2pAddr` — the body is `todo!()`, an unconditional panic. -/
def I2pAddr.fmt (_ : I2pAddr) : RunResult Unit String := .panic

/-! ## Basic length facts -/

/-- The concrete 32-byte key used in the repository's own test
(`b"an example very very secret key."`). -/
def key32c : List Nat :=
  [97, 110, 32, 101, 120, 97, 109, 112, 108, 101, 32, 118, 101, 114, 121, 32,
   118, 101, 114, 121, 32, 115, 101, 99, 114, 101, 116, 32, 107, 101, 121, 46]

theorem leBytes_length (k n : Nat) : (leBytes k n).length = k := by
  simp [leBytes]

theorem keyStream_length (key nb : List Nat) (len : Nat) :
    (keyStream key nb len).length = len := by
  simp [keyStream]

theorem poly1305_length (kb m : List Nat) : (poly1305 kb m).length = 16 := by
  simp [poly1305, leBytes]

theorem aeadEncrypt_length (key nb a p : List Nat) :
    (aeadEncrypt key nb a p).length = p.length + 16 := by
  simp [aeadEncrypt, List.length_zipWith, keyStream_length, poly1305_length]

theorem zipWith_xor_cancel (p : List Nat) : ∀ ks : List Nat, p.length ≤ ks.length →
    List.zipWith Nat.xor (List.zipWith Nat.xor p ks) ks = p := by
  induction p with
  | nil => intro ks _; simp
  | cons x xs ih =>
    intro ks h
    cases ks with
    | nil => simp at h
    | cons y ys =>
      simp only [List.zipWith, List.cons.injEq]
      exact ⟨Nat.xor_cancel_right y x, ih ys (Nat.le_of_succ_le_succ h)⟩

/-- The core AEAD round-trip: decrypting an honestly produced ciphertext with
the same key, nonce and associated data recovers the plaintext. -/
theorem aead_roundtrip (key nb aad p : List Nat) :
    aeadDecrypt key nb aad (aeadEncrypt key nb aad p) = some p := by
  have hks := keyStream_length key nb p.length
  have hctl : (List.zipWith Nat.xor p (keyStream key nb p.length)).length = p.length := by
    rw [List.length_zipWith, hks, min_self]
  unfold aeadEncrypt aeadDecrypt
  rw [List.length_append, hctl, poly1305_length, Nat.add_sub_cancel]
  rw [if_neg (by omega), List.take_left' hctl, List.drop_left' hctl, if_pos rfl]
  rw [hctl]
  exact congrArg some (zipWith_xor_cancel p (keyStream key nb p.length) (by rw [hks]))

/-- A successful `aeadDecrypt` produces exactly `ct.length - 16` bytes. -/
theorem aeadDecrypt_length (key nb a ct pt : List Nat)
    (h : aeadDecrypt key nb a ct = some pt) : pt.length = ct.length - 16 := by
  unfold aeadDecrypt at h
  split at h
  · exact absurd h (by simp)
  · split at h
    · injection h with h'
      rw [← h', List.length_zipWith, keyStream_length, min_self, List.length_take]
      omega
    · exact absurd h (by simp)

/-- With a 32-byte key, `encrypt` without an output buffer returns the AEAD
ciphertext. -/
theorem encrypt_eq (key : List Nat) (h32 : key.length = 32) (n : Nat) (a p : List Nat) :
    encrypt key n a p none = .ok (aeadEncrypt key (_nonce n) a p, none) := by
  simp [encrypt, _cypher, h32]

/-- With a 32-byte key, `decrypt` without an output buffer succeeds exactly
when the underlying AEAD decryption does. -/
theorem decrypt_eq_of_some (conv : AeadErrorImage) (key : List Nat)
    (h32 : key.length = 32) (n : Nat) (a ct pt : List Nat)
    (h : aeadDecrypt key (_nonce n) a ct = some pt) :
    decrypt conv key n a ct none = .ok (pt, none) := by
  simp [decrypt, _cypher, h32, h]

/-! ## Claim theorems -/

/-- Claim C1: for every 32-byte key, counter, associated data and plaintext,
decrypting the output of `encrypt` with the same key, counter and associated
data (both calls without a caller-supplied output buffer) returns the
original plaintext. -/
theorem c1_encrypt_decrypt_roundtrip (conv : AeadErrorImage) (key : List Nat)
    (n : Nat) (a p e : List Nat) (h32 : key.length = 32)
    (hE : encrypt key n a p none = .ok (e, none)) :
    decrypt conv key n a e none = .ok (p, none) := by
  rw [encrypt_eq key h32 n a p] at hE
  have he : aeadEncrypt key (_nonce n) a p = e := by
    injection hE with h
    exact congrArg Prod.fst h
  rw [← he]
  exact decrypt_eq_of_some conv key h32 n a (aeadEncrypt key (_nonce n) a p) p
    (aead_roundtrip key (_nonce n) a p)

/-- Witness for C1 at a concrete key, counter, associated data and
plaintext. -/
theorem c1_encrypt_decrypt_roundtrip_witness :
    key32c.length = 32 ∧
    encrypt key32c 3 [9] [1, 2, 3] none =
      .ok (aeadEncrypt key32c (_nonce 3) [9] [1, 2, 3], none) ∧
    decrypt EncryptionError.authenticationFailed key32c 3 [9]
      (aeadEncrypt key32c (_nonce 3) [9] [1, 2, 3]) none = .ok ([1, 2, 3], none) :=
  ⟨by decide, encrypt_eq key32c (by decide) 3 [9] [1, 2, 3],
    c1_encrypt_decrypt_roundtrip EncryptionError.authenticationFailed key32c 3 [9]
      [1, 2, 3] _ (by decide) (encrypt_eq key32c (by decide) 3 [9] [1, 2, 3])⟩

/-- Claim C3: the derived 12-byte nonce has bytes 0-3 zero and bytes 4-11 the
little-endian encoding of the 64-bit counter, and derivation is a pure,
total, deterministic function of the counter. -/
theorem c3_nonce_derivation (n : Nat) (hn : n < 18446744073709551616) :
    (_nonce n).length = 12 ∧
    (∀ i, i < 4 → (_nonce n).getD i 1 = 0) ∧
    (∀ j, j < 8 → (_nonce n).getD (4 + j) 1 = n / 256 ^ j % 256) ∧
    _nonce n = _nonce n := by
  refine ⟨by simp [_nonce, leBytes], ?_, ?_, rfl⟩
  · intro i hi
    interval_cases i <;> rfl
  · intro j hj
    interval_cases j <;> rfl

/-- Witness for C3 at counter 5. -/
theorem c3_nonce_derivation_witness :
    (5 : Nat) < 18446744073709551616 ∧
    ((_nonce 5).length = 12 ∧
      (∀ i, i < 4 → (_nonce 5).getD i 1 = 0) ∧
      (∀ j, j < 8 → (_nonce 5).getD (4 + j) 1 = 5 / 256 ^ j % 256) ∧
      _nonce 5 = _nonce 5) :=
  ⟨by decide, c3_nonce_derivation 5 (by decide)⟩

/-- Claim C4: `encrypt` produces a ciphertext of length `len(p) + 16`, and a
successful `decrypt` produces a plaintext of length `len(ct) - 16`. -/
theorem c4_length_contract (conv : AeadErrorImage) (key : List Nat) (n : Nat)
    (a p e ct pt : List Nat) (be bd : Option (List Nat)) (h32 : key.length = 32)
    (hE : encrypt key n a p none = .ok (e, be))
    (hD : decrypt conv key n a ct none = .ok (pt, bd)) :
    e.length = p.length + 16 ∧ pt.length = ct.length - 16 := by
  constructor
  · rw [encrypt_eq key h32 n a p] at hE
    have he : aeadEncrypt key (_nonce n) a p = e := by
      injection hE with h
      exact congrArg Prod.fst h
    rw [← he]
    exact aeadEncrypt_length key (_nonce n) a p
  · cases hq : aeadDecrypt key (_nonce n) a ct with
    | none => simp [decrypt, _cypher, h32, hq] at hD
    | some q =>
      simp only [decrypt, _cypher, h32, if_true, hq] at hD
      have hpt : q = pt := by
        simp at hD
        exact hD.1
      rw [← hpt]
      exact aeadDecrypt_length key (_nonce n) a ct q hq

/-- Witness for C4 at a concrete key, plaintext and ciphertext. -/
theorem c4_length_contract_witness :
    key32c.length = 32 ∧
    encrypt key32c 0 [] [7] none =
      .ok (aeadEncrypt key32c (_nonce 0) [] [7], none) ∧
    decrypt EncryptionError.authenticationFailed key32c 0 []
      (aeadEncrypt key32c (_nonce 0) [] [7]) none = .ok ([7], none) ∧
    ((aeadEncrypt key32c (_nonce 0) [] [7]).length = [7].length + 16 ∧
      [7].length = (aeadEncrypt key32c (_nonce 0) [] [7]).length - 16) :=
  ⟨by decide, encrypt_eq key32c (by decide) 0 [] [7],
    decrypt_eq_of_some EncryptionError.authenticationFailed key32c (by decide) 0 []
      (aeadEncrypt key32c (_nonce 0) [] [7]) [7]
      (aead_roundtrip key32c (_nonce 0) [] [7]),
    c4_length_contract EncryptionError.authenticationFailed key32c 0 [] [7] _
      (aeadEncrypt key32c (_nonce 0) [] [7]) [7] none none (by decide)
      (encrypt_eq key32c (by decide) 0 [] [7])
      (decrypt_eq_of_some EncryptionError.authenticationFailed key32c (by decide) 0 []
        (aeadEncrypt key32c (_nonce 0) [] [7]) [7]
        (aead_roundtrip key32c (_nonce 0) [] [7]))⟩

/-- Counterexample to claim C5 as stated: with an output buffer of the wrong
length (1 byte instead of the 16 produced for an empty plaintext), `encrypt`
panics — it does not report a `BufferLengthMismatch` error. -/
theorem c5_buffer_mismatch_cex :
    encrypt key32c 0 [] [] (some [0]) = RunResult.panic ∧
    encrypt key32c 0 [] [] (some [0]) ≠
      RunResult.error EncryptionError.bufferLengthMismatch := by
  constructor
  · decide
  · decide

/-- Claim C5 as amended: a caller-supplied output buffer whose length differs
from the produced result's length makes `encrypt` (and `decrypt`, when
decryption itself succeeds) panic via `copy_from_slice`, exactly as the
functions' own documentation states, instead of returning an error. -/
theorem c5_buffer_mismatch_panics (conv : AeadErrorImage) (key : List Nat)
    (n : Nat) (a p buf ct pt buf2 : List Nat) (h32 : key.length = 32)
    (hb : buf.length ≠ p.length + 16)
    (hd : aeadDecrypt key (_nonce n) a ct = some pt)
    (hb2 : buf2.length ≠ pt.length) :
    encrypt key n a p (some buf) = RunResult.panic ∧
    decrypt conv key n a ct (some buf2) = RunResult.panic := by
  constructor
  · have hlen := aeadEncrypt_length key (_nonce n) a p
    simp [encrypt, _cypher, h32, copy_from_slice, hlen, hb]
  · simp [decrypt, _cypher, h32, hd, copy_from_slice, hb2]

/-- Witness for the amended C5 at concrete inputs. -/
theorem c5_buffer_mismatch_panics_witness :
    key32c.length = 32 ∧
    ([0] : List Nat).length ≠ ([] : List Nat).length + 16 ∧
    aeadDecrypt key32c (_nonce 0) [] (aeadEncrypt key32c (_nonce 0) [] []) = some [] ∧
    ([0] : List Nat).length ≠ ([] : List Nat).length ∧
    (encrypt key32c 0 [] [] (some [0]) = RunResult.panic ∧
      decrypt EncryptionError.authenticationFailed key32c 0 []
        (aeadEncrypt key32c (_nonce 0) [] []) (some [0]) = RunResult.panic) :=
  ⟨by decide, by decide, aead_roundtrip key32c (_nonce 0) [] [], by decide,
    c5_buffer_mismatch_panics EncryptionError.authenticationFailed key32c 0 [] []
      [0] (aeadEncrypt key32c (_nonce 0) [] []) [] [0] (by decide) (by decide)
      (aead_roundtrip key32c (_nonce 0) [] []) (by decide)⟩

/-- Counterexample to claim C6 as stated: with a 31-byte key, `encrypt`
panics (inside `Key::from_slice`) — it does not return a `KeyError`. -/
theorem c6_bad_key_cex :
    encrypt (List.replicate 31 0) 0 [] [] none = RunResult.panic ∧
    encrypt (List.replicate 31 0) 0 [] [] none ≠
      RunResult.error EncryptionError.keyError := by
  constructor
  · decide
  · decide

/-- Claim C6 as amended: a key whose length is not exactly 32 bytes makes
both `encrypt` and `decrypt` panic during cipher construction
(`Key::from_slice`), rather than returning a `KeyError` result. -/
theorem c6_bad_key_panics (conv : AeadErrorImage) (key : List Nat) (n : Nat)
    (a p ct : List Nat) (bufE bufD : Option (List Nat)) (h : key.length ≠ 32) :
    encrypt key n a p bufE = RunResult.panic ∧
    decrypt conv key n a ct bufD = RunResult.panic := by
  constructor
  · simp [encrypt, _cypher, h]
  · simp [decrypt, _cypher, h]

/-- Witness for the amended C6 at a concrete 31-byte key. -/
theorem c6_bad_key_panics_witness :
    (List.replicate 31 0).length ≠ 32 ∧
    (encrypt (List.replicate 31 0) 0 [] [] none = RunResult.panic ∧
      decrypt EncryptionError.keyError (List.replicate 31 0) 0 [] [] none =
        RunResult.panic) :=
  ⟨by decide,
    c6_bad_key_panics EncryptionError.keyError (List.replicate 31 0) 0 [] [] []
      none none (by decide)⟩

/-- Counterexample to claim C7 as stated: a too-short ciphertext cannot fail
with an error distinct from `AuthenticationFailed`, because the crate's
`aead::Error` is a single opaque value and `decrypt` converts it with one
fixed conversion.  No conversion value makes the empty (too-short)
ciphertext yield `CiphertextTooShort` while a tampered 16-byte ciphertext
yields `AuthenticationFailed`. -/
theorem c7_short_ciphertext_distinct_cex :
    ¬ ∃ conv : AeadErrorImage,
      decrypt conv key32c 0 [] [] none =
        RunResult.error EncryptionError.ciphertextTooShort ∧
      decrypt conv key32c 0 [] (List.replicate 16 0) none =
        RunResult.error EncryptionError.authenticationFailed := by
  rintro ⟨conv, h1, h2⟩
  have e1 : decrypt conv key32c 0 [] [] none = RunResult.error conv := rfl
  have e2 : decrypt conv key32c 0 [] (List.replicate 16 0) none =
      RunResult.error conv := rfl
  rw [e1] at h1
  rw [e2] at h2
  injection h1 with h1
  injection h2 with h2
  subst h1
  exact EncryptionError.noConfusion h2

/-- Claim C7 as amended: `decrypt` on a ciphertext shorter than 16 bytes
fails before any tag verification, but with the same single converted error
value that an authentication failure produces, not with a distinct
`CiphertextTooShort`. -/
theorem c7_short_ciphertext_same_error (conv : AeadErrorImage) (key : List Nat)
    (n : Nat) (a ct ct2 : List Nat) (h32 : key.length = 32)
    (hshort : ct.length < 16) (h2 : 16 ≤ ct2.length)
    (htag : ct2.drop (ct2.length - 16) ≠
      poly1305 (polyKey key (_nonce n)) (macData a (ct2.take (ct2.length - 16)))) :
    decrypt conv key n a ct none = RunResult.error conv ∧
    decrypt conv key n a ct2 none = RunResult.error conv := by
  constructor
  · have hq : aeadDecrypt key (_nonce n) a ct = none := by
      unfold aeadDecrypt
      rw [if_pos hshort]
    simp [decrypt, _cypher, h32, hq]
  · have hq : aeadDecrypt key (_nonce n) a ct2 = none := by
      unfold aeadDecrypt
      rw [if_neg (by omega), if_neg htag]
    simp [decrypt, _cypher, h32, hq]

/-- Witness for the amended C7: the empty ciphertext and an all-zero 16-byte
ciphertext both fail with the same error value. -/
theorem c7_short_ciphertext_same_error_witness :
    key32c.length = 32 ∧
    ([] : List Nat).length < 16 ∧
    16 ≤ (List.replicate 16 0 : List Nat).length ∧
    (List.replicate 16 0 : List Nat).drop ((List.replicate 16 0 : List Nat).length - 16) ≠
      poly1305 (polyKey key32c (_nonce 0))
        (macData [] ((List.replicate 16 0 : List Nat).take
          ((List.replicate 16 0 : List Nat).length - 16))) ∧
    (decrypt EncryptionError.authenticationFailed key32c 0 [] [] none =
        RunResult.error EncryptionError.authenticationFailed ∧
      decrypt EncryptionError.authenticationFailed key32c 0 []
          (List.replicate 16 0) none =
        RunResult.error EncryptionError.authenticationFailed) :=
  ⟨by decide, by decide, by decide, by decide,
    c7_short_ciphertext_same_error EncryptionError.authenticationFailed key32c 0 []
      [] (List.replicate 16 0) (by decide) (by decide) (by decide) (by decide)⟩

/-- Counterexample to claim C9 as stated: formatting the all-zero identity
panics (the `Display` impl is `todo!()`), so `parse(format(x))` cannot
succeed and return `x`; indeed `from_str` never returns `Ok` at all. -/
theorem c9_i2p_roundtrip_cex :
    I2pAddr.fmt ⟨List.replicate 32 0⟩ = RunResult.panic ∧
    ∀ s : String, I2pAddr.from_str s ≠ RunResult.ok ⟨List.replicate 32 0⟩ := by
  refine ⟨rfl, fun s h => ?_⟩
  simp only [I2pAddr.from_str] at h
  exact RunResult.noConfusion h

/-- Claim C9 as amended: both `from_str` and the `Display` impl of the
address-identity type are unimplemented stubs (`todo!()`), so every call to
either panics and no parse/format round-trip holds. -/
theorem c9_i2p_stubs_panic (x : I2pAddr) (s : String) :
    I2pAddr.fmt x = RunResult.panic ∧ I2pAddr.from_str s = RunResult.panic :=
  ⟨rfl, rfl⟩

/-- Claim C10: on a successful `encrypt` (resp. `decrypt`) with a
caller-supplied output buffer, the buffer's final contents equal the
returned result. -/
theorem c10_output_buffer_matches_result (conv : AeadErrorImage)
    (key : List Nat) (n : Nat) (a p bufE ct bufD e pt : List Nat)
    (be bd : Option (List Nat))
    (hE : encrypt key n a p (some bufE) = .ok (e, be))
    (hD : decrypt conv key n a ct (some bufD) = .ok (pt, bd)) :
    be = some e ∧ bd = some pt := by
  constructor
  · simp only [encrypt] at hE
    split at hE
    · exact absurd hE (by simp)
    · split at hE
      · exact absurd hE (by simp)
      · rename_i e2 heq
        injection hE with h
        injection h with h1 h2
        subst h1
        subst h2
        simp only [copy_from_slice] at heq
        split at heq
        · exact heq.symm
        · exact absurd heq (by simp)
  · simp only [decrypt] at hD
    split at hD
    · exact absurd hD (by simp)
    · split at hD
      · exact absurd hD (by simp)
      · split at hD
        · exact absurd hD (by simp)
        · rename_i d2 heq
          injection hD with h
          injection h with h1 h2
          subst h1
          subst h2
          simp only [copy_from_slice] at heq
          split at heq
          · exact heq.symm
          · exact absurd heq (by simp)

/-- Witness for C10 at concrete successful calls with exact-length output
buffers. -/
theorem c10_output_buffer_matches_result_witness :
    encrypt key32c 0 [] [1, 2] (some (List.replicate 18 0)) =
      .ok (aeadEncrypt key32c (_nonce 0) [] [1, 2],
        some (aeadEncrypt key32c (_nonce 0) [] [1, 2])) ∧
    decrypt EncryptionError.authenticationFailed key32c 0 []
      (aeadEncrypt key32c (_nonce 0) [] [1, 2]) (some [0, 0]) =
      .ok ([1, 2], some [1, 2]) ∧
    (some (aeadEncrypt key32c (_nonce 0) [] [1, 2]) =
        some (aeadEncrypt key32c (_nonce 0) [] [1, 2]) ∧
      some ([1, 2] : List Nat) = some [1, 2]) :=
  ⟨by decide, by decide,
    c10_output_buffer_matches_result EncryptionError.authenticationFailed key32c 0
      [] [1, 2] (List.replicate 18 0) (aeadEncrypt key32c (_nonce 0) [] [1, 2])
      [0, 0] (aeadEncrypt key32c (_nonce 0) [] [1, 2]) [1, 2]
      (some (aeadEncrypt key32c (_nonce 0) [] [1, 2])) (some [1, 2])
      (by decide) (by decide)⟩
